import Mathlib

/-!
Verification of the document-normalization and rendering core of the PubMed
MCP server (`src/server.py`).

The generic nested structure produced by the XML-to-dict translation is
modelled by `DocumentNode`: a value is a scalar string, a mapping from field
names to nodes, or an ordered sequence of nodes.  Python dictionary/string
operations that can raise (`.get` on a non-dict, `str.lower` on a non-string,
`", ".join` over non-strings, subscripting) are modelled as `Except String`
computations; a `try/except` guard becomes a wrapper that maps any error to
the documented default value.  Unicode-sensitive Python primitives
(`str.lower`, `str.isdigit`) are modelled on the ASCII range, which is the
range exercised by all the data considered here.
-/

inductive DocumentNode where
  | str (s : String)
  | map (fields : List (String × DocumentNode))
  | seq (items : List DocumentNode)

/-- Python truthiness of a node: a string, dict or list is truthy iff non-empty. -/
def truthy : DocumentNode → Bool
  | .str s => s != ""
  | .map fs => !fs.isEmpty
  | .seq xs => !xs.isEmpty

/-- Python `isinstance(x, list)`. -/
def isList : DocumentNode → Bool
  | .seq _ => true
  | _ => false

/-- Python `isinstance(x, dict)`. -/
def isMap : DocumentNode → Bool
  | .map _ => true
  | _ => false

mutual

/-- Python `repr` of a node (the text produced when a non-string node is
interpolated into an f-string or passed to `str`). -/
def pyRepr : DocumentNode → String
  | .str s => "\x27" ++ s ++ "\x27"
  | .seq xs => "[" ++ String.intercalate ", " (pyReprList xs) ++ "]"
  | .map fs => "\x7b" ++ String.intercalate ", " (pyReprFields fs) ++ "\x7d"

def pyReprList : List DocumentNode → List String
  | [] => []
  | x :: xs => pyRepr x :: pyReprList xs

def pyReprFields : List (String × DocumentNode) → List String
  | [] => []
  | (k, v) :: fs => ("\x27" ++ k ++ "\x27: " ++ pyRepr v) :: pyReprFields fs

end

/-- Python `str(x)` / f-string interpolation of a node. -/
def pyStr : DocumentNode → String
  | .str s => s
  | n => pyRepr n

/-- Python `s.lower()` on the ASCII range. -/
def pyLower (s : String) : String :=
  String.mk (s.data.map Char.toLower)

/-- Python `d.get(key, default)`: succeeds on a dict, raises `AttributeError`
on a string or list. -/
def pyGet (n : DocumentNode) (key : String) (dflt : DocumentNode) :
    Except String DocumentNode :=
  match n with
  | .map fs => .ok ((fs.lookup key).getD dflt)
  | _ => .error "AttributeError"

/-- Python `d.get(key, default)` on a value already known to be a dict
(guarded by an `isinstance(x, dict)` check in the source): never raises. -/
def mapGet (fs : List (String × DocumentNode)) (key : String)
    (dflt : DocumentNode) : DocumentNode :=
  (fs.lookup key).getD dflt

/-- The `if not isinstance(x, list): x = [x]` normalization used by
`_extract_authors` and `_parse_articles` (no truthiness check). -/
def toListPy : DocumentNode → List DocumentNode
  | .seq xs => xs
  | v => [v]

/-- The `if not isinstance(x, list): x = [x] if x else []` normalization used
by `_extract_doi`, `_extract_keywords`, `_extract_publication_types` and
`_extract_mesh_terms`. -/
def toListPyTruthy : DocumentNode → List DocumentNode
  | .seq xs => xs
  | v => if truthy v then [v] else []

/-- All elements of a Python list are strings (the precondition for
`sep.join(xs)` not to raise), returning the underlying strings. -/
def allStrs : List DocumentNode → Option (List String)
  | [] => some []
  | .str s :: rest => (allStrs rest).map (s :: ·)
  | _ :: _ => none

/-- Python `sep.join(xs)`: raises `TypeError` when any element is not a
string. -/
def pyJoinStrs (sep : String) (xs : List DocumentNode) : Except String String :=
  match allStrs xs with
  | some ss => .ok (String.intercalate sep ss)
  | none => .error "TypeError"

/-! ## Field extractors (`server.py` lines 518-687)

Each `extract...Body` is the body of the corresponding `try:` block; the
public `_extract_...` function catches every error and returns the
documented default, exactly as the Python `except` clause does. -/

/-- Loop body of `_extract_authors` (server.py 525-538): formats each dict
entry, prefers LastName+ForeName, then LastName+Initials, then the bare
LastName (appended as the raw node), and skips entries without a truthy
LastName and entries that are not dicts. -/
def collectNames : List DocumentNode → List DocumentNode
  | [] => []
  | a :: rest =>
    match a with
    | .map fs =>
      let last := mapGet fs "LastName" (.str "")
      let fore := mapGet fs "ForeName" (.str "")
      let inits := mapGet fs "Initials" (.str "")
      if truthy last then
        (if truthy fore then .str (pyStr last ++ " " ++ pyStr fore)
         else if truthy inits then .str (pyStr last ++ " " ++ pyStr inits)
         else last) :: collectNames rest
      else collectNames rest
    | _ => collectNames rest

/-- Body of `_extract_authors` (server.py 518-543). -/
def extractAuthorsBody (author_list : DocumentNode) : Except String String :=
  match pyGet author_list "Author" (DocumentNode.seq []) with
  | .error e => .error e
  | .ok raw =>
    let authors := toListPy raw
    let names := collectNames (authors.take 15)
    if authors.length > 15 then
      match pyJoinStrs ", " names with
      | .error e => .error e
      | .ok j => .ok (j ++ ", et al.")
    else if names.isEmpty then .ok "Authors not available"
    else pyJoinStrs ", " names

/-- `_extract_authors` (server.py 518-546): any error yields the default. -/
def _extract_authors (author_list : DocumentNode) : String :=
  match extractAuthorsBody author_list with
  | .ok v => v
  | .error _ => "Authors not available"

/-- Body of `_extract_pub_date` (server.py 548-570). -/
def extractPubDateBody (journal_issue : DocumentNode) :
    Except String DocumentNode :=
  match pyGet journal_issue "PubDate" (DocumentNode.map []) with
  | .error e => .error e
  | .ok pd =>
    match pd with
    | .map fs =>
      let year := mapGet fs "Year" (.str "")
      let month := mapGet fs "Month" (.str "")
      let day := mapGet fs "Day" (.str "")
      let dateString := mapGet fs "MedlineDate" (.str "")
      if truthy dateString then .ok dateString
      else if truthy year then
        let dateParts :=
          [year] ++ (if truthy month then
                       [month] ++ (if truthy day then [day] else [])
                     else [])
        match pyJoinStrs " " dateParts with
        | .error e => .error e
        | .ok j => .ok (.str j)
      else .ok (.str "Date not available")
    | _ => .ok (.str "Date not available")

/-- `_extract_pub_date` (server.py 548-573). -/
def _extract_pub_date (journal_issue : DocumentNode) : DocumentNode :=
  match extractPubDateBody journal_issue with
  | .ok v => v
  | .error _ => .str "Date not available"

/-- One part of a structured abstract (server.py 583-592): a labeled dict
part renders as `**Label:** text`, an unlabeled dict part contributes its raw
`#text` node, other parts contribute their `str()` rendering; dict parts with
falsy text are skipped. -/
def abstractPart (part : DocumentNode) : Option DocumentNode :=
  match part with
  | .map fs =>
    let label := mapGet fs "@Label" (.str "")
    let text := mapGet fs "#text" (.str "")
    if truthy label && truthy text then
      some (.str ("**" ++ pyStr label ++ ":** " ++ pyStr text))
    else if truthy text then some text
    else none
  | p => some (.str (pyStr p))

/-- Body of `_extract_abstract` (server.py 575-598). -/
def extractAbstractBody (abstract_data : DocumentNode) :
    Except String DocumentNode :=
  match pyGet abstract_data "AbstractText" (DocumentNode.str "") with
  | .error e => .error e
  | .ok atext =>
    match atext with
    | .seq parts =>
      match pyJoinStrs "\n\n" (parts.filterMap abstractPart) with
      | .error e => .error e
      | .ok j => .ok (.str j)
    | .map fs => .ok (mapGet fs "#text" (.str ""))
    | .str s => .ok (if s != "" then .str s else .str "")

/-- `_extract_abstract` (server.py 575-601). -/
def _extract_abstract (abstract_data : DocumentNode) : DocumentNode :=
  match extractAbstractBody abstract_data with
  | .ok v => v
  | .error _ => .str ""

/-- Loop of `_extract_doi` (server.py 609-617): first entry whose
`@EIdType` lowercases to "doi" and whose `#text` is truthy; `str.lower` on a
non-string type tag raises. -/
def doiScan : List DocumentNode → Except String DocumentNode
  | [] => .ok (.str "")
  | e :: rest =>
    match e with
    | .map fs =>
      match mapGet fs "@EIdType" (.str "") with
      | .str t =>
        if pyLower t = "doi" then
          let doi := mapGet fs "#text" (.str "")
          if truthy doi then .ok doi else doiScan rest
        else doiScan rest
      | _ => .error "AttributeError"
    | _ => doiScan rest

/-- Body of `_extract_doi` (server.py 603-617). -/
def extractDoiBody (elocation_ids : DocumentNode) : Except String DocumentNode :=
  doiScan (toListPyTruthy elocation_ids)

/-- `_extract_doi` (server.py 603-620). -/
def _extract_doi (elocation_ids : DocumentNode) : DocumentNode :=
  match extractDoiBody elocation_ids with
  | .ok v => v
  | .error _ => .str ""

/-- Loop of `_extract_keywords` (server.py 632-640): `seen` holds the
lowercased keywords already emitted; dict keywords contribute their `#text`
(lowercasing a truthy non-string text raises), other truthy keywords
contribute their `str()` rendering. -/
def kwLoop : List DocumentNode → List String → Except String (List String)
  | [], _ => .ok []
  | k :: rest, seen =>
    match k with
    | .map fs =>
      let text := mapGet fs "#text" (.str "")
      if truthy text then
        match text with
        | .str t =>
          if seen.contains (pyLower t) then kwLoop rest seen
          else
            match kwLoop rest (pyLower t :: seen) with
            | .error e => .error e
            | .ok r => .ok (t :: r)
        | _ => .error "AttributeError"
      else kwLoop rest seen
    | _ =>
      if truthy k then
        let t := pyStr k
        if seen.contains (pyLower t) then kwLoop rest seen
        else
          match kwLoop rest (pyLower t :: seen) with
          | .error e => .error e
          | .ok r => .ok (t :: r)
      else kwLoop rest seen

/-- Body of `_extract_keywords` (server.py 622-642). -/
def extractKeywordsBody (keyword_list : DocumentNode) :
    Except String (List String) :=
  match pyGet keyword_list "Keyword" (DocumentNode.seq []) with
  | .error e => .error e
  | .ok raw => kwLoop (toListPyTruthy raw) []

/-- `_extract_keywords` (server.py 622-645). -/
def _extract_keywords (keyword_list : DocumentNode) : List String :=
  match extractKeywordsBody keyword_list with
  | .ok v => v
  | .error _ => []

/-- Loop of `_extract_publication_types` (server.py 655-661): dict entries
contribute their truthy `#text` node, other entries their `str()` rendering
unconditionally. -/
def ptLoop : List DocumentNode → List DocumentNode
  | [] => []
  | p :: rest =>
    match p with
    | .map fs =>
      let text := mapGet fs "#text" (.str "")
      if truthy text then text :: ptLoop rest else ptLoop rest
    | other => .str (pyStr other) :: ptLoop rest

/-- Body of `_extract_publication_types` (server.py 647-663). -/
def extractPubTypesBody (pub_type_list : DocumentNode) :
    Except String (List DocumentNode) :=
  match pyGet pub_type_list "PublicationType" (DocumentNode.seq []) with
  | .error e => .error e
  | .ok raw => .ok (ptLoop (toListPyTruthy raw))

/-- `_extract_publication_types` (server.py 647-666). -/
def _extract_publication_types (pub_type_list : DocumentNode) :
    List DocumentNode :=
  match extractPubTypesBody pub_type_list with
  | .ok v => v
  | .error _ => []

/-- Loop of `_extract_mesh_terms` (server.py 676-682): only dict headings
with a dict `DescriptorName` carrying a truthy `#text` contribute. -/
def meshLoop : List DocumentNode → List DocumentNode
  | [] => []
  | h :: rest =>
    match h with
    | .map fs =>
      match mapGet fs "DescriptorName" (DocumentNode.map []) with
      | .map dfs =>
        let term := mapGet dfs "#text" (.str "")
        if truthy term then term :: meshLoop rest else meshLoop rest
      | _ => meshLoop rest
    | _ => meshLoop rest

/-- Body of `_extract_mesh_terms` (server.py 668-684); the heading list is
truncated to the first 10 entries before extraction. -/
def extractMeshBody (mesh_list : DocumentNode) :
    Except String (List DocumentNode) :=
  match pyGet mesh_list "MeshHeading" (DocumentNode.seq []) with
  | .error e => .error e
  | .ok raw => .ok (meshLoop ((toListPyTruthy raw).take 10))

/-- `_extract_mesh_terms` (server.py 668-687). -/
def _extract_mesh_terms (mesh_list : DocumentNode) : List DocumentNode :=
  match extractMeshBody mesh_list with
  | .ok v => v
  | .error _ => []

/-! ## Publication record and batch parsing (`server.py` lines 429-516)

Field values that Python stores without a string conversion (journal titles,
dates, abstracts, DOIs, publication types, MeSH terms) are kept as
`DocumentNode` (a Python `str` is the `.str` constructor). -/

structure Publication where
  pmid : String
  title : String
  authors : String
  journal : DocumentNode
  journal_iso : DocumentNode
  pub_date : DocumentNode
  abstract : DocumentNode
  doi : DocumentNode
  keywords : List String
  publication_types : List DocumentNode
  mesh_terms : List DocumentNode

/-- Body of `_parse_single_article` (server.py 455-512): each `.get` on a
value that is not a dict raises and aborts this document. -/
def parseSingleBody (article_data : DocumentNode) : Except String Publication :=
  match pyGet article_data "MedlineCitation" (DocumentNode.map []) with
  | .error e => .error e
  | .ok medline =>
  match pyGet article_data "PubmedData" (DocumentNode.map []) with
  | .error e => .error e
  | .ok _pubmedData =>
  match pyGet medline "Article" (DocumentNode.map []) with
  | .error e => .error e
  | .ok article_info =>
  match pyGet medline "PMID" (DocumentNode.map []) with
  | .error e => .error e
  | .ok pmidRaw =>
  let pmid0 := match pmidRaw with
    | .map fs => mapGet fs "#text" (.str "")
    | x => x
  let pmid := if truthy pmid0 then pyStr pmid0 else "Unknown"
  match pyGet article_info "ArticleTitle" (DocumentNode.str "") with
  | .error e => .error e
  | .ok titleRaw =>
  let title0 := match titleRaw with
    | .map fs => mapGet fs "#text" (.str "")
    | x => x
  let title := if truthy title0 then pyStr title0 else "No title available"
  match pyGet article_info "AuthorList" (DocumentNode.map []) with
  | .error e => .error e
  | .ok authorList =>
  let authors := _extract_authors authorList
  match pyGet article_info "Journal" (DocumentNode.map []) with
  | .error e => .error e
  | .ok journal_info =>
  match pyGet journal_info "Title" (DocumentNode.str "Unknown journal") with
  | .error e => .error e
  | .ok journal_title =>
  match pyGet journal_info "ISOAbbreviation" (DocumentNode.str "") with
  | .error e => .error e
  | .ok journal_iso =>
  match pyGet journal_info "JournalIssue" (DocumentNode.map []) with
  | .error e => .error e
  | .ok journal_issue =>
  let pub_date := _extract_pub_date journal_issue
  match pyGet article_info "Abstract" (DocumentNode.map []) with
  | .error e => .error e
  | .ok abstract_data =>
  let abstract := _extract_abstract abstract_data
  match pyGet article_info "ELocationID" (DocumentNode.seq []) with
  | .error e => .error e
  | .ok elocation_ids =>
  let doi := _extract_doi elocation_ids
  match pyGet medline "KeywordList" (DocumentNode.map []) with
  | .error e => .error e
  | .ok keyword_list =>
  let keywords := _extract_keywords keyword_list
  match pyGet article_info "PublicationTypeList" (DocumentNode.map []) with
  | .error e => .error e
  | .ok pub_type_list =>
  let publication_types := _extract_publication_types pub_type_list
  match pyGet medline "MeshHeadingList" (DocumentNode.map []) with
  | .error e => .error e
  | .ok mesh_list =>
  .ok { pmid := pmid, title := title, authors := authors,
        journal := journal_title, journal_iso := journal_iso,
        pub_date := pub_date, abstract := abstract, doi := doi,
        keywords := keywords, publication_types := publication_types,
        mesh_terms := _extract_mesh_terms mesh_list }

/-- `_parse_single_article` (server.py 453-516): any error in the body is
caught and the document yields `None`. -/
def _parse_single_article (article_data : DocumentNode) : Option Publication :=
  match parseSingleBody article_data with
  | .ok a => some a
  | .error _ => none

/-- `_parse_articles` (server.py 429-451).  A returned record is a non-empty
dict, hence truthy, so the `if article:` append test keeps exactly the
documents whose parse succeeded; the only raise points are the two initial
`.get` calls, at which point the accumulator is still empty. -/
def _parse_articles (xml_data : DocumentNode) : List Publication :=
  match pyGet xml_data "PubmedArticleSet" (DocumentNode.map []) with
  | .error _ => []
  | .ok pubmedData =>
    if !truthy pubmedData then []
    else
      match pyGet pubmedData "PubmedArticle" (DocumentNode.seq []) with
      | .error _ => []
      | .ok raw => (toListPy raw).filterMap _parse_single_article

/-! ## Query augmentation (`server.py` lines 200-213) -/

/-- Python `s.isdigit()` restricted to the decimal range. -/
def pyIsdigit (s : String) : Bool :=
  s != "" && s.data.all Char.isDigit

/-- The date-range augmentation of `_search_pubmed` (server.py 200-213),
with the wall-clock year passed explicitly. -/
def augmentQuery (query : String) (dateRange : String) (currentYear : Int) :
    String :=
  if dateRange != "" then
    if dateRange = "last_5_years" then
      query ++ " AND " ++ toString (currentYear - 5) ++ ":" ++
        toString currentYear ++ "[pdat]"
    else if dateRange = "last_year" then
      query ++ " AND " ++ toString (currentYear - 1) ++ ":" ++
        toString currentYear ++ "[pdat]"
    else if dateRange.data.contains ':' then
      query ++ " AND " ++ dateRange ++ "[pdat]"
    else if pyIsdigit dateRange && dateRange.length == 4 then
      query ++ " AND " ++ dateRange ++ "[pdat]"
    else query
  else query

/-! ## Related-id resolution (`server.py` lines 362-380) -/

/-- Contiguous-sublist test used to model Python substring membership. -/
def listContainsSub (needle : List Char) : List Char → Bool
  | [] => needle.isEmpty
  | c :: rest => needle.isPrefixOf (c :: rest) || listContainsSub needle rest

/-- Python `key in x`: key lookup on a dict, substring test on a string,
element equality on a list. -/
def pyIn (key : String) : DocumentNode → Bool
  | .map fs => fs.any (fun p => p.1 == key)
  | .str s => listContainsSub key.toList s.toList
  | .seq xs => xs.any (fun x => match x with | .str s => s == key | _ => false)

/-- Python `x[key]`: raises `KeyError` on a dict without the key, and
`TypeError` on a string or list. -/
def pySub (n : DocumentNode) (key : String) : Except String DocumentNode :=
  match n with
  | .map fs =>
    match fs.lookup key with
    | some v => .ok v
    | none => .error "KeyError"
  | _ => .error "TypeError"

/-- The `x = x[0] if x else {}` collapse applied to `LinkSet` and
`LinkSetDb` when they are lists (server.py 365-366, 370-371). -/
def pyFirstOrEmpty : DocumentNode → DocumentNode
  | .seq (x :: _) => x
  | .seq [] => .map []
  | x => x

/-- Python `node != pmid` for a link identifier compared with the origin
PMID string: only an equal string compares equal. -/
def pyEqStr (n : DocumentNode) (s : String) : Bool :=
  match n with
  | .str t => t == s
  | _ => false

/-- The list comprehension
`[link["Id"] for link in links if link["Id"] != pmid]` (server.py 377). -/
def collectLinks (pmid : String) : List DocumentNode →
    Except String (List DocumentNode)
  | [] => .ok []
  | l :: rest =>
    match pySub l "Id" with
    | .error e => .error e
    | .ok i =>
      match collectLinks pmid rest with
      | .error e => .error e
      | .ok r => .ok (if pyEqStr i pmid then r else i :: r)

/-- The innermost region of `_get_similar_articles` (server.py 373-380):
given the (already collapsed) link-set-database, collect the linked
identifiers different from the origin PMID. -/
def resolveFromLinksetDb (linksetdb : DocumentNode) (pmid : String) :
    Except String (List DocumentNode) :=
  if pyIn "Link" linksetdb then
    match pySub linksetdb "Link" with
    | .error e => .error e
    | .ok links =>
      match links with
      | .seq xs => collectLinks pmid xs
      | single =>
        match pySub single "Id" with
        | .error e => .error e
        | .ok i => .ok (if pyEqStr i pmid then [] else [i])
  else .ok []

/-- The middle region of `_get_similar_articles` (server.py 368-380): from
the (already collapsed) link-set, collapse `LinkSetDb` to its first element
when it is a list and continue. -/
def resolveFromLinkset (linkset : DocumentNode) (pmid : String) :
    Except String (List DocumentNode) :=
  if pyIn "LinkSetDb" linkset then
    match pySub linkset "LinkSetDb" with
    | .error e => .error e
    | .ok linksetdb0 => resolveFromLinksetDb (pyFirstOrEmpty linksetdb0) pmid
  else .ok []

/-- The similar-PMID resolution step of `_get_similar_articles`
(server.py 362-380), as a function of the parsed elink result. -/
def _get_similar_pmids (link_result : DocumentNode) (pmid : String) :
    Except String (List DocumentNode) :=
  if pyIn "eLinkResult" link_result then
    match pySub link_result "eLinkResult" with
    | .error e => .error e
    | .ok elinkResult =>
      if pyIn "LinkSet" elinkResult then
        match pySub elinkResult "LinkSet" with
        | .error e => .error e
        | .ok linkset0 => resolveFromLinkset (pyFirstOrEmpty linkset0) pmid
      else .ok []
  else .ok []

/-! ## Detail rendering (`server.py` lines 723-781)

The only raise points are the two `", ".join` calls over node lists
(publication types and MeSH terms); everything else is total. -/

/-- `_format_article_details` (server.py 723-781). -/
def _format_article_details (a : Publication) : Except String String :=
  let details0 : List String :=
    ["# 📄 Publication Details - PMID " ++ a.pmid ++ "\n",
     "## " ++ a.title ++ "\n",
     "**Authors:** " ++ a.authors ++ "\n",
     "**Journal:** " ++ pyStr a.journal]
    ++ (if truthy a.journal_iso then
          ["**Journal (ISO):** " ++ pyStr a.journal_iso] else [])
    ++ ["**Published:** " ++ pyStr a.pub_date,
        "**PMID:** " ++ a.pmid]
    ++ (if truthy a.doi then ["**DOI:** " ++ pyStr a.doi] else [])
    ++ ["\n## 🔗 Quick Access Links",
        "• [📄 **View on PubMed**](https://pubmed.ncbi.nlm.nih.gov/" ++
          a.pmid ++ "/) - Official PubMed page"]
    ++ (if truthy a.doi then
          ["• [📋 **DOI Link**](https://doi.org/" ++ pyStr a.doi ++
             ") - Publisher\x27s page",
           "• [🔍 **Full Text Access**](https://doi.org/" ++ pyStr a.doi ++
             ") - Try to access full paper"]
        else
          ["• [🔍 **Search Full Text**](https://pubmed.ncbi.nlm.nih.gov/" ++
             a.pmid ++ "/) - Look for free full text"])
    ++ ["• [📊 **Citation Analysis**](https://scholar.google.com/scholar?q=" ++
          a.pmid ++ ") - Google Scholar citations",
        "• [🔗 **Find Similar**](https://pubmed.ncbi.nlm.nih.gov/sites/pubmed/?linkname=pubmed_pubmed&from_uid=" ++
          a.pmid ++ ") - Related articles"]
  match (if a.publication_types.isEmpty then Except.ok details0
         else
           match pyJoinStrs ", " a.publication_types with
           | .error e => .error e
           | .ok j => .ok (details0 ++ ["\n**Publication Types:** " ++ j])) with
  | .error e => .error e
  | .ok d1 =>
    let d2 := if truthy a.abstract then
        d1 ++ ["\n## 📋 Abstract\n\n" ++ pyStr a.abstract]
      else d1
    let d3 := if a.keywords.isEmpty then d2
      else d2 ++ ["\n**🏷️ Keywords:** " ++ String.intercalate ", " a.keywords]
    match (if a.mesh_terms.isEmpty then Except.ok d3
           else
             match pyJoinStrs ", " a.mesh_terms with
             | .error e => .error e
             | .ok j => .ok (d3 ++ ["\n**🔬 MeSH Terms:** " ++ j])) with
    | .error e => .error e
    | .ok d4 => Except.ok (String.intercalate "\n" d4)

/-! ## Claims -/

/-- C1: every field extractor is a total function of the `DocumentNode`
domain by construction, and whenever its body would raise (any internal
inconsistency), the extractor returns its documented default — a placeholder
string for authors and dates, the empty string for abstract and DOI, the
empty list for keywords, publication types and MeSH terms — instead of
propagating the error. -/
theorem extractors_swallow_errors (n : DocumentNode) (e : String) :
    (extractAuthorsBody n = .error e → _extract_authors n = "Authors not available") ∧
    (extractPubDateBody n = .error e → _extract_pub_date n = .str "Date not available") ∧
    (extractAbstractBody n = .error e → _extract_abstract n = .str "") ∧
    (extractDoiBody n = .error e → _extract_doi n = .str "") ∧
    (extractKeywordsBody n = .error e → _extract_keywords n = []) ∧
    (extractPubTypesBody n = .error e → _extract_publication_types n = []) ∧
    (extractMeshBody n = .error e → _extract_mesh_terms n = []) := by
  refine ⟨fun h => ?_, fun h => ?_, fun h => ?_, fun h => ?_,
    fun h => ?_, fun h => ?_, fun h => ?_⟩ <;>
  simp only [_extract_authors, _extract_pub_date, _extract_abstract,
    _extract_doi, _extract_keywords, _extract_publication_types,
    _extract_mesh_terms, h]

/-- C1 witness: concrete malformed inputs (a scalar where a mapping is
expected; a non-string identifier type tag) on which each extractor body
does raise, and the extractor returns its default. -/
theorem extractors_swallow_errors_witness :
    _extract_authors (.str "x") = "Authors not available" ∧
    _extract_pub_date (.str "x") = .str "Date not available" ∧
    _extract_abstract (.str "x") = .str "" ∧
    _extract_doi (.map [("@EIdType", .map [("x", .str "y")])]) = .str "" ∧
    _extract_keywords (.str "x") = [] ∧
    _extract_publication_types (.str "x") = [] ∧
    _extract_mesh_terms (.str "x") = [] :=
  ⟨(extractors_swallow_errors (.str "x") "AttributeError").1 rfl,
   (extractors_swallow_errors (.str "x") "AttributeError").2.1 rfl,
   (extractors_swallow_errors (.str "x") "AttributeError").2.2.1 rfl,
   (extractors_swallow_errors (.map [("@EIdType", .map [("x", .str "y")])])
     "AttributeError").2.2.2.1 rfl,
   (extractors_swallow_errors (.str "x") "AttributeError").2.2.2.2.1 rfl,
   (extractors_swallow_errors (.str "x") "AttributeError").2.2.2.2.2.1 rfl,
   (extractors_swallow_errors (.str "x") "AttributeError").2.2.2.2.2.2 rfl⟩

/-- C2 counterexample: cardinality invariance fails for `_extract_abstract`
(a single labeled mapping yields the bare inner text, the one-element
sequence of the same mapping yields the labeled rendering) and for
`_extract_pub_date` (a single mapping yields the composed date, the
one-element sequence yields the fallback). -/
theorem cardinality_invariance_counterexample :
    _extract_abstract (.map [("AbstractText",
        .map [("@Label", .str "BACKGROUND"), ("#text", .str "x")])]) ≠
      _extract_abstract (.map [("AbstractText",
        .seq [.map [("@Label", .str "BACKGROUND"), ("#text", .str "x")]])]) ∧
    _extract_pub_date (.map [("PubDate", .map [("Year", .str "2020")])]) ≠
      _extract_pub_date (.map [("PubDate", .seq [.map [("Year", .str "2020")]])]) := by
  constructor
  · intro h
    have h2 : DocumentNode.str "x" = DocumentNode.str "**BACKGROUND:** x" := h
    injection h2 with h3
    exact absurd h3 (by decide)
  · intro h
    have h2 : DocumentNode.str "2020" = DocumentNode.str "Date not available" := h
    injection h2 with h3
    exact absurd h3 (by decide)

/-- C2 amended: cardinality invariance does hold for the five extractors
that route their field through the scalar-or-sequence normalization —
authors, DOI, keywords, publication types and MeSH terms: a single mapping
value and its one-element-sequence form yield identical extracted values. -/
theorem cardinality_invariance_normalized_extractors
    (fs : List (String × DocumentNode)) :
    _extract_authors (.map [("Author", .map fs)]) =
      _extract_authors (.map [("Author", .seq [.map fs])]) ∧
    _extract_doi (.map fs) = _extract_doi (.seq [.map fs]) ∧
    _extract_keywords (.map [("Keyword", .map fs)]) =
      _extract_keywords (.map [("Keyword", .seq [.map fs])]) ∧
    _extract_publication_types (.map [("PublicationType", .map fs)]) =
      _extract_publication_types (.map [("PublicationType", .seq [.map fs])]) ∧
    _extract_mesh_terms (.map [("MeshHeading", .map fs)]) =
      _extract_mesh_terms (.map [("MeshHeading", .seq [.map fs])]) := by
  cases fs with
  | nil => exact ⟨rfl, rfl, rfl, rfl, rfl⟩
  | cons a as => exact ⟨rfl, rfl, rfl, rfl, rfl⟩

/-- C3: the date-range augmentation rule table, in priority order — empty
token: unchanged; `last_5_years` and `last_year`: relative ranges from the
current year; a token containing `:`: passed through verbatim; a 4-digit
token: passed through; anything else: unchanged, no error. -/
theorem augment_query_rule_table (q t : String) (y : Int) :
    (augmentQuery q "" y = q) ∧
    (augmentQuery q "last_5_years" y =
      q ++ " AND " ++ toString (y - 5) ++ ":" ++ toString y ++ "[pdat]") ∧
    (augmentQuery q "last_year" y =
      q ++ " AND " ++ toString (y - 1) ++ ":" ++ toString y ++ "[pdat]") ∧
    (t ≠ "" → t ≠ "last_5_years" → t ≠ "last_year" → t.data.contains ':' = true →
      augmentQuery q t y = q ++ " AND " ++ t ++ "[pdat]") ∧
    (t ≠ "" → t ≠ "last_5_years" → t ≠ "last_year" → t.data.contains ':' = false →
      (pyIsdigit t && t.length == 4) = true →
      augmentQuery q t y = q ++ " AND " ++ t ++ "[pdat]") ∧
    (t ≠ "" → t ≠ "last_5_years" → t ≠ "last_year" → t.data.contains ':' = false →
      (pyIsdigit t && t.length == 4) = false → augmentQuery q t y = q) := by
  refine ⟨rfl, rfl, rfl, fun h1 h2 h3 h4 => ?_, fun h1 h2 h3 h4 h5 => ?_,
    fun h1 h2 h3 h4 h5 => ?_⟩
  · have h4' : (':' : Char) ∈ t.data := List.mem_of_elem_eq_true h4
    simp [augmentQuery, bne_iff_ne, h1, h2, h3, h4']
  · simp [augmentQuery, bne_iff_ne, h1, h2, h3, h4, h5]
  · have h4e : List.elem ':' t.data = false := h4
    have h4' : (':' : Char) ∉ t.data := fun hm =>
      absurd (List.elem_eq_true_of_mem hm)
        (by rw [h4e]; exact Bool.false_ne_true)
    simp [augmentQuery, bne_iff_ne, h1, h2, h3, h4', h5]

/-- C3 witness: the four documented concrete examples of the augmentation
rule, at current year 2025. -/
theorem augment_query_rule_table_witness :
    augmentQuery "cancer" "2020:2024" 2025 = "cancer AND 2020:2024[pdat]" ∧
    augmentQuery "cancer" "2023" 2025 = "cancer AND 2023[pdat]" ∧
    augmentQuery "cancer" "bogus" 2025 = "cancer" :=
  ⟨(augment_query_rule_table "cancer" "2020:2024" 2025).2.2.2.1
      (by decide) (by decide) (by decide) rfl,
   (augment_query_rule_table "cancer" "2023" 2025).2.2.2.2.1
      (by decide) (by decide) (by decide) rfl rfl,
   (augment_query_rule_table "cancer" "bogus" 2025).2.2.2.2.2
      (by decide) (by decide) (by decide) rfl rfl⟩

/-- A minimal well-formed fetched document carrying only a PMID. -/
def goodDoc (p : String) : DocumentNode :=
  .map [("MedlineCitation", .map [("PMID", .str p)])]

/-- The `Publication` produced for `goodDoc p`: every other field takes its
documented default. -/
def pubOf (p : String) : Publication :=
  { pmid := p, title := "No title available", authors := "Authors not available",
    journal := .str "Unknown journal", journal_iso := .str "",
    pub_date := .str "Date not available", abstract := .str "", doi := .str "",
    keywords := [], publication_types := [], mesh_terms := [] }

/-- C8: `_parse_articles` maps the document sequence through the fallible
per-document parser and keeps, in input order, exactly the documents that
parsed — a malformed document is dropped without aborting the batch, and a
batch whose every document fails yields the empty sequence, not an error.
In particular a 3-document set with document 2 malformed yields exactly the
publications of documents 1 and 3. -/
theorem parse_articles_batch_resilience :
    (∀ docs : List DocumentNode,
      _parse_articles (.map [("PubmedArticleSet",
          .map [("PubmedArticle", .seq docs)])]) =
        docs.filterMap _parse_single_article) ∧
    _parse_articles (.map [("PubmedArticleSet", .map [("PubmedArticle",
        .seq [goodDoc "1", .str "malformed", goodDoc "3"])])]) =
      [pubOf "1", pubOf "3"] ∧
    _parse_articles (.map [("PubmedArticleSet", .map [("PubmedArticle",
        .seq [DocumentNode.str "malformed"])])]) = [] :=
  ⟨fun _ => rfl, rfl, rfl⟩

/-- C5 counterexample: an empty-string keyword is skipped entirely (Python
truthiness), so the extracted list does not contain the first occurrence of
every case-insensitively-distinct input keyword. -/
theorem keyword_dedup_counterexample :
    _extract_keywords (.map [("Keyword", .seq [.str "", .str "ML"])]) = ["ML"] ∧
    "" ∉ _extract_keywords (.map [("Keyword", .seq [.str "", .str "ML"])]) := by
  constructor
  · rfl
  · decide

/-- Modelled on the spec wording for keyword deduplication: keep the first
occurrence of each case-insensitively-distinct keyword, in input order, with
its first-seen casing; `seen` accumulates the lowercased keywords emitted. -/
def specDedupCIAux : List String → List String → List String
  | [], _ => []
  | k :: rest, seen =>
    if seen.contains (pyLower k) then specDedupCIAux rest seen
    else k :: specDedupCIAux rest (pyLower k :: seen)

/-- Modelled on the spec wording: case-insensitive first-occurrence dedup. -/
def specDedupCI (l : List String) : List String := specDedupCIAux l []

theorem kwLoop_strings (kws : List String) :
    ∀ seen, kwLoop (kws.map DocumentNode.str) seen =
      .ok (specDedupCIAux (kws.filter (fun k => k != "")) seen) := by
  induction kws with
  | nil => intro seen; rfl
  | cons k rest ih =>
    intro seen
    by_cases hk : k = ""
    · subst hk
      simp [kwLoop, truthy, List.filter, ih]
    · have hkb : (k != "") = true := by simp [bne_iff_ne, hk]
      simp [kwLoop, truthy, pyStr, List.filter, hkb, specDedupCIAux, ih]
      split <;> rfl

/-- C5 amended: on a sequence of string keywords the extractor returns the
case-insensitive first-occurrence deduplication (first-seen casing, input
order) of the non-empty keywords; empty-string keywords are skipped.  The
documented example `["AI", "ai", "ML"] → ["AI", "ML"]` holds. -/
theorem keyword_dedup_amended :
    (∀ kws : List String,
      _extract_keywords (.map [("Keyword", .seq (kws.map DocumentNode.str))]) =
        specDedupCI (kws.filter (fun k => k != ""))) ∧
    _extract_keywords (.map [("Keyword", .seq [.str "AI", .str "ai", .str "ML"])]) =
      ["AI", "ML"] := by
  constructor
  · intro kws
    show (match kwLoop (kws.map DocumentNode.str) [] with
          | .ok v => v | .error _ => []) = _
    rw [kwLoop_strings]
    rfl
  · rfl

/-- A leaf link entry carrying one linked identifier. -/
def mkLink (i : String) : DocumentNode := .map [("Id", .str i)]

/-- A link-set-database with a target database name and a list of links. -/
def mkLinkSetDb (db : String) (ids : List String) : DocumentNode :=
  .map [("DbTo", .str db), ("Link", .seq (ids.map mkLink))]

theorem collectLinks_mkLink (origin : String) (ids : List String) :
    collectLinks origin (ids.map mkLink) =
      .ok ((ids.filter (fun i => i != origin)).map DocumentNode.str) := by
  induction ids with
  | nil => rfl
  | cons i rest ih =>
    by_cases h : i = origin
    · subst h
      simp [collectLinks, mkLink, pySub, pyEqStr, List.filter, ih]
    · have hb : (i != origin) = true := by simp [bne_iff_ne, h]
      simp [collectLinks, mkLink, pySub, pyEqStr, List.filter, bne_iff_ne, h, hb, ih]

/-- C6 counterexample: with two link-set-databases for the same target
database, the second one's links are dropped — the resolver keeps only the
first link-set-database and applies no database-name filter, so the linked
identifier "3" of the second container never appears. -/
theorem related_scope_counterexample :
    _get_similar_pmids (.map [("eLinkResult", .map [("LinkSet",
        .map [("LinkSetDb", .seq [mkLinkSetDb "pubmed" ["2"],
          mkLinkSetDb "pubmed" ["3"]])])])]) "1" = .ok [DocumentNode.str "2"] ∧
    DocumentNode.str "3" ∉ [DocumentNode.str "2"] := by
  constructor
  · rfl
  · intro hm
    have h2 : DocumentNode.str "3" = DocumentNode.str "2" :=
      List.mem_singleton.mp hm
    injection h2 with h3
    exact absurd h3 (by decide)

/-- C6 amended: the resolver collects the links of the first link-set's
first link-set-database only, whatever its target database name is: any
further link-sets or link-set-databases are ignored, and no target-database
filter is applied to the first one.  The collected identifiers are the link
identifiers not equal to the origin, in input order. -/
theorem related_scope_first_containers_only (dbto : String) (ids : List String)
    (restDbs restSets : List DocumentNode) (origin : String) :
    _get_similar_pmids (.map [("eLinkResult", .map [("LinkSet",
        .seq (DocumentNode.map [("LinkSetDb",
          .seq (mkLinkSetDb dbto ids :: restDbs))] :: restSets))])]) origin =
      .ok ((ids.filter (fun i => i != origin)).map DocumentNode.str) :=
  collectLinks_mkLink origin ids

theorem collectLinks_not_mem (origin : String) :
    ∀ (ls r : List DocumentNode),
      collectLinks origin ls = .ok r → DocumentNode.str origin ∉ r := by
  intro ls
  induction ls with
  | nil =>
    intro r h
    injection h with h'
    subst h'
    simp
  | cons l rest ih =>
    intro r h
    unfold collectLinks at h
    cases hsub : pySub l "Id" with
    | error e => rw [hsub] at h; exact absurd h (by simp)
    | ok i =>
      rw [hsub] at h
      cases hrec : collectLinks origin rest with
      | error e => rw [hrec] at h; exact absurd h (by simp)
      | ok r' =>
        rw [hrec] at h
        injection h with h'
        subst h'
        cases hq : pyEqStr i origin with
        | true => simp only [hq, if_true]; exact ih r' hrec
        | false =>
          simp only [hq, if_false, Bool.false_eq_true]
          intro hm
          rcases List.mem_cons.mp hm with he | hm'
          · rw [← he] at hq
            simp [pyEqStr] at hq
          · exact ih r' hrec hm'

theorem resolveFromLinksetDb_not_mem (db : DocumentNode) (origin : String)
    (ids : List DocumentNode) (h : resolveFromLinksetDb db origin = .ok ids) :
    DocumentNode.str origin ∉ ids := by
  unfold resolveFromLinksetDb at h
  split at h
  · split at h
    · exact absurd h (by simp)
    · split at h
      · exact collectLinks_not_mem origin _ ids h
      · split at h
        · exact absurd h (by simp)
        · injection h with h'
          subst h'
          rename_i i _
          cases hq : pyEqStr i origin with
          | true => simp [hq]
          | false =>
            simp only [hq, Bool.false_eq_true, if_false]
            intro hm
            rw [← List.mem_singleton.mp hm] at hq
            simp [pyEqStr] at hq
  · injection h with h'
    subst h'
    simp

theorem resolveFromLinkset_not_mem (ls : DocumentNode) (origin : String)
    (ids : List DocumentNode) (h : resolveFromLinkset ls origin = .ok ids) :
    DocumentNode.str origin ∉ ids := by
  unfold resolveFromLinkset at h
  split at h
  · split at h
    · exact absurd h (by simp)
    · exact resolveFromLinksetDb_not_mem _ origin ids h
  · injection h with h'
    subst h'
    simp

/-- C7: the resolved similar-identifier sequence never contains the origin
identifier, whatever the shape of the link-result document (first conjunct);
and on a well-formed link document the result is exactly the link
identifiers different from the origin, in input order, with no sorting
(second conjunct). -/
theorem related_ids_self_exclusion :
    (∀ (doc : DocumentNode) (origin : String) (ids : List DocumentNode),
      _get_similar_pmids doc origin = .ok ids →
        DocumentNode.str origin ∉ ids) ∧
    (∀ (ids : List String) (origin : String),
      _get_similar_pmids (.map [("eLinkResult", .map [("LinkSet",
          .map [("LinkSetDb", mkLinkSetDb "pubmed" ids)])])]) origin =
        .ok ((ids.filter (fun i => i != origin)).map DocumentNode.str)) := by
  constructor
  · intro doc origin ids h
    unfold _get_similar_pmids at h
    split at h
    · split at h
      · exact absurd h (by simp)
      · split at h
        · split at h
          · exact absurd h (by simp)
          · exact resolveFromLinkset_not_mem _ origin ids h
        · injection h with h'
          subst h'
          simp
    · injection h with h'
      subst h'
      simp
  · intro ids origin
    exact collectLinks_mkLink origin ids

/-- C7 witness: for links `["1", "2", "1"]` with origin `"1"`, the resolved
sequence is `["2"]` and the origin is excluded even though it appears twice
and first. -/
theorem related_ids_self_exclusion_witness :
    _get_similar_pmids (.map [("eLinkResult", .map [("LinkSet",
        .map [("LinkSetDb", mkLinkSetDb "pubmed" ["1", "2", "1"])])])]) "1" =
      .ok [DocumentNode.str "2"] ∧
    DocumentNode.str "1" ∉ [DocumentNode.str "2"] :=
  ⟨rfl,
   related_ids_self_exclusion.1
     (.map [("eLinkResult", .map [("LinkSet",
        .map [("LinkSetDb", mkLinkSetDb "pubmed" ["1", "2", "1"])])])])
     "1" [DocumentNode.str "2"] rfl⟩

/-- C9: on a publication whose optional fields (journal ISO abbreviation,
DOI, publication types, abstract, keywords, MeSH terms) are all empty, the
detail rendering succeeds and consists of exactly the mandatory lines —
title header, authors, journal, date, PMID and the links block — with no
optional section header and no filler line. -/
theorem render_detail_omits_empty_sections (p : Publication)
    (h1 : truthy p.journal_iso = false) (h2 : truthy p.doi = false)
    (h3 : p.publication_types = []) (h4 : truthy p.abstract = false)
    (h5 : p.keywords = []) (h6 : p.mesh_terms = []) :
    _format_article_details p = Except.ok (String.intercalate "\n"
      ["# 📄 Publication Details - PMID " ++ p.pmid ++ "\n",
       "## " ++ p.title ++ "\n",
       "**Authors:** " ++ p.authors ++ "\n",
       "**Journal:** " ++ pyStr p.journal,
       "**Published:** " ++ pyStr p.pub_date,
       "**PMID:** " ++ p.pmid,
       "\n## 🔗 Quick Access Links",
       "• [📄 **View on PubMed**](https://pubmed.ncbi.nlm.nih.gov/" ++
         p.pmid ++ "/) - Official PubMed page",
       "• [🔍 **Search Full Text**](https://pubmed.ncbi.nlm.nih.gov/" ++
         p.pmid ++ "/) - Look for free full text",
       "• [📊 **Citation Analysis**](https://scholar.google.com/scholar?q=" ++
         p.pmid ++ ") - Google Scholar citations",
       "• [🔗 **Find Similar**](https://pubmed.ncbi.nlm.nih.gov/sites/pubmed/?linkname=pubmed_pubmed&from_uid=" ++
         p.pmid ++ ") - Related articles"]) := by
  simp [_format_article_details, h1, h2, h3, h4, h5, h6]

set_option maxRecDepth 4096 in
/-- C9 witness: a concrete publication with every optional field empty
renders to exactly the mandatory detail block. -/
theorem render_detail_omits_empty_sections_witness :
    truthy (DocumentNode.str "") = false ∧
    _format_article_details
      { pmid := "1", title := "T", authors := "A",
        journal := .str "J", journal_iso := .str "", pub_date := .str "D",
        abstract := .str "", doi := .str "", keywords := [],
        publication_types := [], mesh_terms := [] } =
      Except.ok ("# 📄 Publication Details - PMID 1\n\n## T\n\n**Authors:** A\n\n**Journal:** J\n**Published:** D\n**PMID:** 1\n\n## 🔗 Quick Access Links\n• [📄 **View on PubMed**](https://pubmed.ncbi.nlm.nih.gov/1/) - Official PubMed page\n• [🔍 **Search Full Text**](https://pubmed.ncbi.nlm.nih.gov/1/) - Look for free full text\n• [📊 **Citation Analysis**](https://scholar.google.com/scholar?q=1) - Google Scholar citations\n• [🔗 **Find Similar**](https://pubmed.ncbi.nlm.nih.gov/sites/pubmed/?linkname=pubmed_pubmed&from_uid=1) - Related articles") :=
  ⟨rfl, render_detail_omits_empty_sections _ rfl rfl rfl rfl rfl rfl⟩

/-- An author-list container holding the given author entries. -/
def mkAuthorList (entries : List DocumentNode) : DocumentNode :=
  .map [("Author", .seq entries)]

/-- A well-formed author entry: a mapping whose `LastName` is a non-empty
string. -/
def authorOk : DocumentNode → Bool
  | .map fs =>
    match fs.lookup "LastName" with
    | some (.str s) => s != ""
    | _ => false
  | _ => false

/-- Modelled on the spec wording for author formatting: prefer
"LastName ForeName", fall back to "LastName Initials", then the bare
last name. -/
def specAuthorName (e : DocumentNode) : String :=
  match e with
  | .map fs =>
    if truthy (mapGet fs "ForeName" (.str "")) then
      pyStr (mapGet fs "LastName" (.str "")) ++ " " ++
        pyStr (mapGet fs "ForeName" (.str ""))
    else if truthy (mapGet fs "Initials" (.str "")) then
      pyStr (mapGet fs "LastName" (.str "")) ++ " " ++
        pyStr (mapGet fs "Initials" (.str ""))
    else pyStr (mapGet fs "LastName" (.str ""))
  | _ => ""

theorem extract_authors_ok (n : DocumentNode) (v : String)
    (h : extractAuthorsBody n = .ok v) : _extract_authors n = v := by
  simp [_extract_authors, h]

theorem extractAuthorsBody_mk (entries : List DocumentNode) :
    extractAuthorsBody (mkAuthorList entries) =
      (if entries.length > 15 then
        match pyJoinStrs ", " (collectNames (entries.take 15)) with
        | .error e => .error e
        | .ok j => .ok (j ++ ", et al.")
      else if (collectNames (entries.take 15)).isEmpty then
        .ok "Authors not available"
      else pyJoinStrs ", " (collectNames (entries.take 15))) := rfl

theorem collectNames_eq (l : List DocumentNode) (h : l.all authorOk = true) :
    collectNames l = l.map (fun e => DocumentNode.str (specAuthorName e)) := by
  induction l with
  | nil => rfl
  | cons e rest ih =>
    rw [List.all_cons, Bool.and_eq_true] at h
    obtain ⟨he, hrest⟩ := h
    cases e with
    | str s => simp [authorOk] at he
    | seq xs => simp [authorOk] at he
    | map fs =>
      simp only [authorOk] at he
      cases hl : fs.lookup "LastName" with
      | none => rw [hl] at he; simp at he
      | some v =>
        cases v with
        | map gs => rw [hl] at he; simp at he
        | seq xs => rw [hl] at he; simp at he
        | str s =>
          rw [hl] at he
          have ht : truthy (DocumentNode.str s) = true := he
          simp only [collectNames, List.map_cons, mapGet, hl,
            Option.getD_some, specAuthorName, ht, if_true, ih hrest, pyStr]
          congr 1
          split
          · rfl
          · split <;> rfl

theorem allStrs_map_str (f : DocumentNode → String) (l : List DocumentNode) :
    allStrs (l.map (fun e => DocumentNode.str (f e))) = some (l.map f) := by
  induction l with
  | nil => rfl
  | cons e rest ih => simp [allStrs, ih]

/-- C4: for an author list of well-formed entries (each a mapping with a
non-empty string last name), a pre-truncation count above 15 yields the
first 15 formatted names joined by ", " followed by the literal ", et al."
suffix, and a count of at most 15 yields the joined formatted names with no
suffix appended. -/
theorem authors_truncation_et_al (entries : List DocumentNode)
    (h : entries.all authorOk = true) :
    (15 < entries.length →
      _extract_authors (mkAuthorList entries) =
        String.intercalate ", " ((entries.take 15).map specAuthorName) ++
          ", et al.") ∧
    (entries.length ≤ 15 → entries ≠ [] →
      _extract_authors (mkAuthorList entries) =
        String.intercalate ", " (entries.map specAuthorName)) := by
  have hall : (entries.take 15).all authorOk = true := by
    rw [List.all_eq_true] at h ⊢
    exact fun x hx => h x (List.take_subset 15 entries hx)
  have hnames := collectNames_eq _ hall
  have hjoin : pyJoinStrs ", " (collectNames (entries.take 15)) =
      .ok (String.intercalate ", " ((entries.take 15).map specAuthorName)) := by
    rw [hnames]
    unfold pyJoinStrs
    rw [allStrs_map_str]
  constructor
  · intro hlen
    apply extract_authors_ok
    rw [extractAuthorsBody_mk, if_pos hlen, hjoin]
  · intro hlen hne
    have htake : entries.take 15 = entries := List.take_of_length_le hlen
    rw [htake] at hjoin hnames
    apply extract_authors_ok
    rw [extractAuthorsBody_mk, htake,
      if_neg (by omega : ¬ entries.length > 15)]
    have hne2 : (collectNames entries).isEmpty = false := by
      rw [hnames]
      cases entries with
      | nil => exact absurd rfl hne
      | cons a as => rfl
    simp only [hne2, Bool.false_eq_true, if_false]
    exact hjoin

/-- Twenty well-formed authors, for the C4 witness. -/
def cAuthors20 : List DocumentNode :=
  List.replicate 20 (.map [("LastName", .str "Smith"), ("ForeName", .str "J")])

/-- C4 witness: a 20-author source yields the 15 first formatted names
joined by ", " plus the literal ", et al." suffix. -/
theorem authors_truncation_et_al_witness :
    cAuthors20.all authorOk = true ∧
    _extract_authors (mkAuthorList cAuthors20) =
      String.intercalate ", " ((cAuthors20.take 15).map specAuthorName) ++
        ", et al." :=
  ⟨by decide, (authors_truncation_et_al cAuthors20 (by decide)).1 (by decide)⟩

/-- The node is a scalar string. -/
def isStrNode : DocumentNode → Bool
  | .str _ => true
  | _ => false

/-- The entry's `LastName` value, when truthy, is a string — the condition
under which the joined author names cannot raise. -/
def lastNameStrOk : DocumentNode → Bool
  | .map fs =>
    match mapGet fs "LastName" (.str "") with
    | .str _ => true
    | v => !truthy v
  | _ => true

/-- The entry contributes no rendered name: it is not a mapping, or its
`LastName` is falsy. -/
def lacksLastName : DocumentNode → Bool
  | .map fs => !truthy (mapGet fs "LastName" (.str ""))
  | _ => true

theorem collectNames_mem_str (l : List DocumentNode)
    (h : l.all lastNameStrOk = true) :
    ∀ x ∈ collectNames l, isStrNode x = true := by
  induction l with
  | nil => intro x hx; simp [collectNames] at hx
  | cons e rest ih =>
    rw [List.all_cons, Bool.and_eq_true] at h
    obtain ⟨he, hrest⟩ := h
    intro x hx
    cases e with
    | str s => exact ih hrest x (by simpa [collectNames] using hx)
    | seq xs => exact ih hrest x (by simpa [collectNames] using hx)
    | map fs =>
      cases hv : mapGet fs "LastName" (.str "") with
      | map gs =>
        have hf : truthy (DocumentNode.map gs) = false := by
          simp only [lastNameStrOk, hv] at he
          simpa using he
        rw [collectNames.eq_def] at hx
        simp only [hv, hf, Bool.false_eq_true, if_false] at hx
        exact ih hrest x hx
      | seq ys =>
        have hf : truthy (DocumentNode.seq ys) = false := by
          simp only [lastNameStrOk, hv] at he
          simpa using he
        rw [collectNames.eq_def] at hx
        simp only [hv, hf, Bool.false_eq_true, if_false] at hx
        exact ih hrest x hx
      | str s =>
        by_cases hts : truthy (DocumentNode.str s) = true
        · rw [collectNames.eq_def] at hx
          simp only [hv, hts, if_true] at hx
          rcases List.mem_cons.mp hx with hx1 | hx2
          · rw [hx1]
            split
            · rfl
            · split <;> rfl
          · exact ih hrest x hx2
        · have hf : truthy (DocumentNode.str s) = false :=
            Bool.eq_false_iff.mpr hts
          rw [collectNames.eq_def] at hx
          simp only [hv, hf, Bool.false_eq_true, if_false] at hx
          exact ih hrest x hx

theorem allStrs_of_all_str (xs : List DocumentNode)
    (h : ∀ x ∈ xs, isStrNode x = true) : ∃ ss, allStrs xs = some ss := by
  induction xs with
  | nil => exact ⟨[], rfl⟩
  | cons x rest ih =>
    obtain ⟨ss, hss⟩ := ih (fun y hy => h y (List.mem_cons_of_mem _ hy))
    cases x with
    | str s => exact ⟨s :: ss, by simp [allStrs, hss]⟩
    | map fs => exact absurd (h _ (List.mem_cons_self _ _)) (by simp [isStrNode])
    | seq l2 => exact absurd (h _ (List.mem_cons_self _ _)) (by simp [isStrNode])

theorem collectNames_nil_of_lacks (l : List DocumentNode)
    (h : l.all lacksLastName = true) : collectNames l = [] := by
  induction l with
  | nil => rfl
  | cons e rest ih =>
    rw [List.all_cons, Bool.and_eq_true] at h
    obtain ⟨he, hrest⟩ := h
    cases e with
    | str s => simpa [collectNames] using ih hrest
    | seq xs => simpa [collectNames] using ih hrest
    | map fs =>
      have hf : truthy (mapGet fs "LastName" (.str "")) = false := by
        simp only [lacksLastName] at he
        simpa using he
      rw [collectNames.eq_def]
      simp only [hf, Bool.false_eq_true, if_false]
      exact ih hrest

theorem authors_et_al_suffix (entries : List DocumentNode)
    (hlen : 15 < entries.length)
    (hstr : (entries.take 15).all lastNameStrOk = true) :
    ∃ s, _extract_authors (mkAuthorList entries) = s ++ ", et al." := by
  obtain ⟨ss, hss⟩ := allStrs_of_all_str _ (collectNames_mem_str _ hstr)
  refine ⟨String.intercalate ", " ss, ?_⟩
  apply extract_authors_ok
  rw [extractAuthorsBody_mk, if_pos hlen]
  unfold pyJoinStrs
  rw [hss]

/-- C10 counterexample: 16 author entries whose `LastName` is a truthy
non-string make the join raise, so the whole extractor falls back to
"Authors not available" — a raw count above 15 does not guarantee the
", et al." suffix. -/
theorem et_al_marker_counterexample :
    _extract_authors (mkAuthorList (List.replicate 16
      (.map [("LastName", .map [("x", .str "y")])]))) =
      "Authors not available" ∧
    ¬ ∃ s, _extract_authors (mkAuthorList (List.replicate 16
      (.map [("LastName", .map [("x", .str "y")])]))) = s ++ ", et al." := by
  constructor
  · rfl
  · rintro ⟨s, hs⟩
    rw [show _extract_authors (mkAuthorList (List.replicate 16
      (.map [("LastName", .map [("x", .str "y")])]))) =
        "Authors not available" from rfl] at hs
    have hdata : ("Authors not available" : String).data =
        s.data ++ (", et al." : String).data := by
      rw [hs]; rfl
    have hL := congrArg List.length hdata
    rw [List.length_append] at hL
    have h21 : ("Authors not available" : String).data.length = 21 := rfl
    have h8 : (", et al." : String).data.length = 8 := rfl
    rw [h21, h8] at hL
    have hlen : s.data.length = 13 := by omega
    have hdrop := congrArg (List.drop 13) hdata
    rw [← hlen, List.drop_left] at hdrop
    rw [hlen] at hdrop
    exact absurd hdrop (by decide)

/-- C10 amended: when the raw entry count exceeds 15 and every present
last-name value among the first 15 entries is a string, the extracted
author string ends with the literal ", et al." regardless of how many names
were rendered; when every entry lacks a last name, the result is the suffix
alone. -/
theorem et_al_marker_raw_count (entries : List DocumentNode)
    (hlen : 15 < entries.length) :
    ((entries.take 15).all lastNameStrOk = true →
      ∃ s, _extract_authors (mkAuthorList entries) = s ++ ", et al.") ∧
    (entries.all lacksLastName = true →
      _extract_authors (mkAuthorList entries) = ", et al.") := by
  constructor
  · exact fun hstr => authors_et_al_suffix entries hlen hstr
  · intro hl
    have h15 : (entries.take 15).all lacksLastName = true := by
      rw [List.all_eq_true] at hl ⊢
      exact fun x hx => hl x (List.take_subset 15 entries hx)
    have hn : collectNames (entries.take 15) = [] :=
      collectNames_nil_of_lacks _ h15
    apply extract_authors_ok
    rw [extractAuthorsBody_mk, if_pos hlen, hn]
    rfl

/-- C10 witness: 16 entries with no last name at all still produce the bare
", et al." marker, which is also an instance of the suffix claim. -/
theorem et_al_marker_raw_count_witness :
    _extract_authors (mkAuthorList (List.replicate 16
      (DocumentNode.map []))) = ", et al." ∧
    ∃ s, _extract_authors (mkAuthorList (List.replicate 16
      (DocumentNode.map []))) = s ++ ", et al." :=
  ⟨(et_al_marker_raw_count (List.replicate 16 (DocumentNode.map []))
      (by decide)).2 (by decide),
   (et_al_marker_raw_count (List.replicate 16 (DocumentNode.map []))
      (by decide)).1 (by decide)⟩
